import Mathlib

/-!
Shallow embedding of the product-sync engine (`src/app/shopify.ts`,
`src/app/routes/app._index.tsx`, CSV types from `~/csv`) and proofs of the
behavioural claims about it.  JavaScript numbers are modelled by `JsNum`
(NaN, the two infinities, or a rational value); JS `Map` objects by
association lists; remote calls by explicit environments (functions from
attempt/index to the response the remote would return).
-/

namespace SyncApp

/-- JavaScript number model: NaN, +Infinity, -Infinity or a rational value. -/
inductive JsNum where
  | nan : JsNum
  | posInf : JsNum
  | negInf : JsNum
  | num : ℚ → JsNum
deriving DecidableEq, Repr

/-- JS `isNaN(x)`. -/
def JsNum.isNaN : JsNum → Bool
  | .nan => true
  | _ => false

/-- The JS comparison `x < 0` (false on NaN). -/
def JsNum.ltZero : JsNum → Bool
  | .nan => false
  | .posInf => false
  | .negInf => true
  | .num q => decide (q < 0)

/-- JS `Number.isFinite(x)`. -/
def JsNum.isFinite : JsNum → Bool
  | .num _ => true
  | _ => false

/-- JS `Math.floor(x)` (identity on NaN and the infinities). -/
def JsNum.floorJ : JsNum → JsNum
  | .num q => .num (⌊q⌋ : ℤ)
  | x => x

/-- Record `ProductData` parsed from the Nouveautes feed (`~/csv`). -/
structure ProductData where
  code : String
  title : String
  description : String
  brand : String
  category : String
  subcategory : String
  barcode : String
  price : JsNum
  stock : JsNum
  bec : String
  image_url : String
deriving DecidableEq, Repr

/-- Record `EpuisesData` parsed from the Epuises feed (`~/csv`). -/
structure EpuisesData where
  code : String
deriving DecidableEq, Repr

/-- The value stored in the `existingProducts` map: remote product id and
inventory-item id (`fetchExistingProducts`). -/
structure RemoteRef where
  id : String
  inventoryItemId : String
deriving DecidableEq, Repr

/-- A remote catalog entity as seen through the product query: its first
variant's barcode (none when the product has no variants) together with the
product and inventory-item identifiers. -/
structure RemoteProduct where
  barcode : Option String
  id : String
  inventoryItemId : String
deriving DecidableEq, Repr

/-- Association-list model of the JS `Map<string, RemoteRef>`:
`Map.prototype.get`. -/
def mapGet (m : List (String × RemoteRef)) (k : String) : Option RemoteRef :=
  (m.find? (fun kv => kv.1 == k)).map (·.2)

/-- JS `Map.prototype.set`: overwrite the entry when the key is present,
append it otherwise. -/
def mapSet (m : List (String × RemoteRef)) (k : String) (v : RemoteRef) :
    List (String × RemoteRef) :=
  if (m.find? (fun kv => kv.1 == k)).isSome then
    m.map (fun kv => if kv.1 == k then (k, v) else kv)
  else
    m ++ [(k, v)]

/-- JS `String.prototype.trim`: strip whitespace from both ends. -/
def jsTrim (s : String) : String :=
  ⟨((s.data.dropWhile Char.isWhitespace).reverse.dropWhile Char.isWhitespace).reverse⟩

/-- Model of `validateProduct` (`src/app/shopify.ts:68-86`): the four checks in source
order; JS string truthiness makes `!s` the test `s == ""`. -/
def validateProduct (p : ProductData) : Bool :=
  if p.title == "" || jsTrim p.title == "" then false
  else if p.barcode == "" || jsTrim p.barcode == "" then false
  else if p.price.isNaN || p.price.ltZero then false
  else if p.stock.isNaN || p.stock.ltZero then false
  else true

/-- Fuel-indexed slicing loop; the fuel only bounds the recursion depth and
is in practice the length of the list being sliced. -/
def chunksAux (k : Nat) : Nat → List α → List (List α)
  | _, [] => []
  | 0, l => [l]
  | fuel + 1, x :: xs => ((x :: xs).take k) :: chunksAux k fuel (xs.drop (k - 1))

/-- The slices `l.slice(i, i + k)` produced by a `for (i = 0; i < n; i += k)`
loop, as in `syncProductsWithShopify` (k = 50) and
`fetchExistingProducts` (k = 250). -/
def chunks (k : Nat) (l : List α) : List (List α) :=
  chunksAux k l.length l

/-- JS `Math.ceil(n / 50)` on a natural count, as in the batch-count
expressions of `syncProductsWithShopify`. -/
def ceilDiv50 (n : Nat) : Nat := (n + 49) / 50

/-- A GraphQL-level error entry (`{ message }` in the response payload,
field list omitted as the client only reads `message`). -/
structure GqlError where
  message : String
deriving DecidableEq, Repr

/-- The observable part of one HTTP response to a GraphQL call:
status code, status text and the optional `errors` array of the JSON body
(`none` models an absent `errors` key, `some []` an empty array, which JS
treats as truthy). -/
structure GqlResponse where
  status : Nat
  statusText : String
  errors : Option (List GqlError)
deriving DecidableEq, Repr

/-- Occurrence of `p` as a contiguous run inside `l`. -/
def subOccurs : List Char → List Char → Bool
  | _, [] => true
  | [], _ => false
  | x :: xs, p => p.isPrefixOf (x :: xs) || subOccurs xs p

/-- JS `s.includes(t)`. -/
def containsSub (s t : String) : Bool := subOccurs s.data t.data

/-- JS `Response.ok`: status in the range 200-299. -/
def jsOk (status : Nat) : Bool := 200 ≤ status && status ≤ 299

/-- The throttling test of `shopifyGraphQL`:
`response.status === 429 || json.errors?.some(e => e.message.includes("Throttled"))`. -/
def isThrottled (r : GqlResponse) : Bool :=
  r.status == 429 ||
    (match r.errors with
     | some es => es.any (fun e => containsSub e.message "Throttled")
     | none => false)

/-- The hard-failure test of `shopifyGraphQL`: `!response.ok || json.errors`
(note that a present-but-empty `errors` array is truthy in JS). -/
def isHardError (r : GqlResponse) : Bool :=
  !(jsOk r.status) || r.errors.isSome

/-- Rendering of a GraphQL error list into the thrown message; stands in for
`JSON.stringify` of the array, keeping each entry's message text. -/
def errStr (es : List GqlError) : String :=
  String.intercalate "; " (es.map (·.message))

/-- The message of the error thrown on a non-throttling failure:
`GraphQL request failed: ${JSON.stringify(json.errors || response.statusText)}`. -/
def hardErrMsg (r : GqlResponse) : String :=
  "GraphQL request failed: " ++
    (match r.errors with
     | some es => errStr es
     | none => r.statusText)

/-- The message thrown when the retry loop exhausts all attempts. -/
def maxRetryMsg : String :=
  "GraphQL request failed after max retries due to rate limiting"

/-- The retry loop of `shopifyGraphQL` (`src/app/shopify.ts:96-118`):
`fuel` is the number of loop iterations still allowed, `retry` the current
iteration index; `resp` gives the response the remote returns on each
attempt.  Returns the outcome together with the list of waits (ms) performed,
each wait being `500 * (retry + 1)`. -/
def gqlLoop (resp : Nat → GqlResponse) : Nat → Nat → Except String GqlResponse × List Nat
  | 0, _ => (.error maxRetryMsg, [])
  | fuel + 1, retry =>
      let r := resp retry
      if isThrottled r then
        let p := gqlLoop resp fuel (retry + 1)
        (p.1, 500 * (retry + 1) :: p.2)
      else if isHardError r then
        (.error (hardErrMsg r), [])
      else
        (.ok r, [])

/-- Model of `shopifyGraphQL`: `maxRetries = 3`, so the loop body runs for
`retry = 0, 1, 2, 3` — four attempts in all. -/
def shopifyGraphQL (resp : Nat → GqlResponse) : Except String GqlResponse × List Nat :=
  gqlLoop resp 4 0

/-- The remote products matched by one catalog query page for a batch of
keys: the query filters on `variants.barcode`, so a product matches when its
first variant's barcode is one of the requested keys. -/
def queryPage (state : List RemoteProduct) (keys : List String) : List RemoteProduct :=
  state.filter (fun rp =>
    match rp.barcode with
    | some b => keys.contains b
    | none => false)

/-- The extraction loop of `fetchExistingProducts`: for each returned
product read the first variant's barcode; `if (barcode)` skips products with
no variant or an empty barcode, otherwise `Map.set` the entry. -/
def insertPage (acc : List (String × RemoteRef)) (page : List RemoteProduct) :
    List (String × RemoteRef) :=
  page.foldl (fun acc rp =>
    match rp.barcode with
    | some b => if b == "" then acc else mapSet acc b ⟨rp.id, rp.inventoryItemId⟩
    | none => acc) acc

/-- Model of `fetchExistingProducts` (`src/app/shopify.ts:121-182`): the requested
codes are cut into batches of 250 and each batch's matching remote products
are folded into one map keyed by remote barcode. -/
def fetchExistingProducts (state : List RemoteProduct) (codes : List String) :
    List (String × RemoteRef) :=
  (chunks 250 codes).foldl (fun acc batch => insertPage acc (queryPage state batch)) []

/-- The key list `const allCodes = [...nouveautes, ...epuises].map((p) => p.code)`
(`src/app/shopify.ts:467`): note that for incoming products this reads the
`code` field, not `barcode`. -/
def allCodes (nouveautes : List ProductData) (epuises : List EpuisesData) : List String :=
  nouveautes.map (·.code) ++ epuises.map (·.code)

/-- A per-field user error returned by a mutation sub-result. -/
structure FieldError where
  field : String
  message : String
deriving DecidableEq, Repr

/-- Rendering of a user-error list into ledger text; stands in for
`JSON.stringify` of the array. -/
def fieldErrStr (es : List FieldError) : String :=
  String.intercalate "; " (es.map (fun e => e.field ++ ": " ++ e.message))

/-- One `productCreate` / `productUpdate` sub-result: the created or updated
product's id, its first variant's inventory-item id, and the per-field user
errors. -/
structure MutSubResult where
  productId : String
  inventoryItemId : String
  userErrors : List FieldError
deriving DecidableEq, Repr

/-- One entry of the `inventoryAdjustQuantities` change list built by
`createOrUpdateProductBatch`.  `inventoryItemId` is `none` when the JS code
reads an index of `variables` that was never assigned (`undefined`). -/
structure InvAdjustment where
  inventoryItemId : Option String
  delta : JsNum
deriving DecidableEq, Repr

/-- The value of `variables[inventoryItemId + index]` once the per-item
result loop has run: a successful sub-result overwrites it with the returned
inventory-item id; a failed update keeps the value set when the mutation was
built; a failed create leaves it unassigned. -/
def varAfterLoop (existing : List (String × RemoteRef)) (results : Nat → MutSubResult)
    (i : Nat) (p : ProductData) : Option String :=
  if (results i).userErrors.isEmpty then some (results i).inventoryItemId
  else (mapGet existing p.barcode).map (·.inventoryItemId)

/-- The ledger entries contributed by item `i` of a batch in the per-item
result loop of `createOrUpdateProductBatch`: one entry on a non-empty
user-error list; otherwise, for a newly created product with a non-empty
image URL, one entry when the image upload fails (`imageRes i = some err`). -/
def itemLedger (existing : List (String × RemoteRef)) (results : Nat → MutSubResult)
    (imageRes : Nat → Option String) (i : Nat) (p : ProductData) : List String :=
  let isUpd := (mapGet existing p.barcode).isSome
  if (results i).userErrors.isEmpty then
    if jsTrim p.image_url != "" && !isUpd then
      match imageRes i with
      | some err => ["Image upload failed for " ++ p.title ++ ": " ++ err]
      | none => []
    else []
  else
    ["Failed to " ++ (if isUpd then "update" else "create") ++ " product " ++
      p.title ++ ": " ++ fieldErrStr (results i).userErrors]

/-- Model of `createOrUpdateProductBatch` (`src/app/shopify.ts:184-345`), as the pair
(ledger entries appended, inventory-adjustment change list sent).  An empty
batch returns early with no remote call; otherwise the adjustment list maps
over every product of the batch, successful or not, with
`delta = Math.floor(product.stock)`. -/
def createOrUpdateProductBatch (existing : List (String × RemoteRef))
    (results : Nat → MutSubResult) (imageRes : Nat → Option String)
    (invUserErrors : List FieldError) (products : List ProductData) :
    List String × List InvAdjustment :=
  if products.isEmpty then ([], [])
  else
    let loopLedger := (products.enum.map
      (fun ip => itemLedger existing results imageRes ip.1 ip.2)).flatten
    let adjustments := products.enum.map
      (fun ip => InvAdjustment.mk (varAfterLoop existing results ip.1 ip.2) ip.2.stock.floorJ)
    let invLedger :=
      if invUserErrors.isEmpty then []
      else products.map (fun p =>
        "Failed to update inventory for " ++ p.title ++ ": " ++ fieldErrStr invUserErrors)
    (loopLedger ++ invLedger, adjustments)

/-- The per-batch validation filter of `syncProductsWithShopify`
(`src/app/shopify.ts:473-479`): returns the valid items in order and the
ledger entries pushed for the rejected ones. -/
def validateBatch (batch : List ProductData) : List ProductData × List String :=
  batch.foldl (fun acc p =>
    if validateProduct p then (acc.1 ++ [p], acc.2)
    else (acc.1, acc.2 ++ ["Validation failed for " ++ p.title])) ([], [])

/-- The item counts of the combined create-or-update mutation requests a run
issues: one request per 50-item slice of the raw incoming list whose valid
subset is non-empty (an all-invalid slice hits the early return and issues
no call). -/
def syncMutationCallSizes (nouveautes : List ProductData) : List Nat :=
  (chunks 50 nouveautes).filterMap (fun b =>
    let v := (validateBatch b).1
    if v.isEmpty then none else some v.length)

/-- The first loop of `setEpuisesStock` (`src/app/shopify.ts:356-368`): a
present code contributes an adjustment with `availableDelta: 0`; an absent
one contributes a ledger entry. -/
def epuisesLoop (epuises : List EpuisesData) (existing : List (String × RemoteRef)) :
    List InvAdjustment × List String :=
  epuises.foldl (fun acc e =>
    match mapGet existing e.code with
    | some ref => (acc.1 ++ [InvAdjustment.mk (some ref.inventoryItemId) (JsNum.num 0)], acc.2)
    | none => (acc.1, acc.2 ++ ["Epuises product not found: " ++ e.code])) ([], [])

/-- Model of `setEpuisesStock` (`src/app/shopify.ts:347-406`): the adjustments and
ledger of the first loop; when at least one adjustment exists the combined
inventory call is issued and its user errors, if any, append one entry per
feed record. -/
def setEpuisesStock (epuises : List EpuisesData) (existing : List (String × RemoteRef))
    (invUserErrors : List FieldError) : List InvAdjustment × List String :=
  let r := epuisesLoop epuises existing
  if r.1.isEmpty then r
  else if invUserErrors.isEmpty then r
  else
    (r.1, r.2 ++ epuises.map (fun e =>
      "Failed to update Epuises inventory for " ++ e.code ++ ": " ++ fieldErrStr invUserErrors))

/-- The mutation-building loop of `deleteEpuisesProducts`: remote product ids
targeted for deletion, plus not-found ledger entries. -/
def deleteEpuisesLoop (epuises : List EpuisesData) (existing : List (String × RemoteRef)) :
    List String × List String :=
  epuises.foldl (fun acc e =>
    match mapGet existing e.code with
    | some ref => (acc.1 ++ [ref.id], acc.2)
    | none => (acc.1, acc.2 ++ ["Epuises product not found: " ++ e.code])) ([], [])

/-- Model of `deleteEpuisesProducts` (`src/app/shopify.ts:408-455`): deletion targets
and ledger; `delErrors i` is the user-error list of sub-result `delete${i}`
(indexed by position in the feed). -/
def deleteEpuisesProducts (epuises : List EpuisesData) (existing : List (String × RemoteRef))
    (delErrors : Nat → List FieldError) : List String × List String :=
  let r := deleteEpuisesLoop epuises existing
  if r.1.isEmpty then r
  else
    let failLedger := (epuises.enum.map (fun ie =>
      match mapGet existing ie.2.code with
      | some _ =>
          if (delErrors ie.1).isEmpty then []
          else ["Failed to delete product " ++ ie.2.code ++ ": " ++ fieldErrStr (delErrors ie.1)]
      | none => [])).flatten
    (r.1, r.2 ++ failLedger)

/-- Outcome of the Epuises phase of a run: inventory adjustments issued,
remote product ids deleted, ledger entries appended. -/
structure EpuisesPhaseOut where
  adjustments : List InvAdjustment
  deletions : List String
  ledger : List String
deriving DecidableEq, Repr

/-- The policy branch of `syncProductsWithShopify`
(`src/app/shopify.ts:487-492`): deletion when
`SHOPIFY_DELETE_EPUISÉS === "true"`, zero-stock otherwise. -/
def epuisesPhase (shouldDelete : Bool) (epuises : List EpuisesData)
    (existing : List (String × RemoteRef)) (invUserErrors : List FieldError)
    (delErrors : Nat → List FieldError) : EpuisesPhaseOut :=
  if shouldDelete then
    let r := deleteEpuisesProducts epuises existing delErrors
    ⟨[], r.1, r.2⟩
  else
    let r := setEpuisesStock epuises existing invUserErrors
    ⟨r.1, [], r.2⟩

/-- Model of `updateProgress` (`src/app/routes/app._index.tsx:131-134`):
`progress = Math.min(progress + increment, 100); return progress`. -/
def updateProgress (progress increment : ℚ) : ℚ :=
  min (progress + increment) 100

/-- The sequence of totals returned by successive `updateProgress` calls,
starting from counter value `p`. -/
def progressTrace (incs : List ℚ) (p : ℚ) : List ℚ :=
  match incs with
  | [] => []
  | i :: rest =>
      let p2 := updateProgress p i
      p2 :: progressTrace rest p2

/-- The per-batch increments passed to `progressCallback` by
`syncProductsWithShopify` (`src/app/shopify.ts:483`):
`(80 / Math.ceil(nouveautes.length / batchSize)) * validBatch.length`. -/
def batchProgressIncrements (nouveautes : List ProductData) : List ℚ :=
  (chunks 50 nouveautes).map (fun b =>
    (80 / (ceilDiv50 nouveautes.length : ℚ)) * (((validateBatch b).1.length : ℚ)))

/-- All increments `syncProductsWithShopify` emits: 10 after the catalog
index is built, one increment per incoming batch, then 10 after the
Epuises phase. -/
def syncProgressIncrements (nouveautes : List ProductData) : List ℚ :=
  10 :: batchProgressIncrements nouveautes ++ [10]

/-- The create/update decision for every validated incoming product of a run
against remote state `state`: the catalog index is fetched with `allCodes`
and each product is looked up by its `barcode`; `true` marks an in-place
update, `false` a create. -/
def runDecisions (state : List RemoteProduct) (nouveautes : List ProductData)
    (epuises : List EpuisesData) : List (ProductData × Bool) :=
  let existing := fetchExistingProducts state (allCodes nouveautes epuises)
  ((chunks 50 nouveautes).map (fun b =>
    (validateBatch b).1.map (fun p => (p, (mapGet existing p.barcode).isSome)))).flatten

/-- Barcodes of the products a run creates (decision `false`). -/
def runCreateBarcodes (state : List RemoteProduct) (nouveautes : List ProductData)
    (epuises : List EpuisesData) : List String :=
  ((runDecisions state nouveautes epuises).filter (fun pb => !pb.2)).map (·.1.barcode)

/-- The remote state after a run: `productCreate` adds, for each created
product, a remote entity whose first variant carries the product's barcode. -/
def applyRun (state : List RemoteProduct) (nouveautes : List ProductData)
    (epuises : List EpuisesData) : List RemoteProduct :=
  state ++ (runCreateBarcodes state nouveautes epuises).map (fun bc =>
    RemoteProduct.mk (some bc) ("gid-created-" ++ bc) ("inv-created-" ++ bc))

/-- The JSON payload returned by the route `action`
(`src/app/routes/app._index.tsx:186-203`). -/
structure ActionResult where
  progress : ℚ
  success : Bool
  message : String
  failedProducts : List String
deriving DecidableEq, Repr

/-- The `resultMessage` template of the action. -/
def resultMessage (validN validE : Nat) (failedProducts : List String) : String :=
  "Successfully synced " ++ toString validN ++ " Nouveautes and " ++
    toString validE ++ " Epuises products" ++
    (if failedProducts.length > 0 then
      " with " ++ toString failedProducts.length ++ " failures"
    else "")

/-- The route `action` (`src/app/routes/app._index.tsx:123-205`) from the
sync call onward.  `syncOutcome` is what `syncProductsWithShopify` does:
`.error e` when it throws, `.ok ledger` when it completes having accumulated
`ledger` internally.  The action allocates its own `failedProducts` array,
never passes it to the sync, and builds the response from that local array. -/
def action (validN validE : Nat) (syncOutcome : Except String (List String))
    (progressAtFailure : ℚ) : ActionResult :=
  let failedProducts : List String := []
  match syncOutcome with
  | .ok _syncLedger =>
      { progress := 100
        success := failedProducts.length == 0
        message := resultMessage validN validE failedProducts
        failedProducts := failedProducts }
  | .error e =>
      { progress := progressAtFailure
        success := false
        message := "Failed to sync products: " ++ e
        failedProducts := [] }

/-- The acceptance condition exactly as claim C5 states it (title and
barcode non-empty after trim, price and stock finite and non-negative),
written from the spec's words for comparison with `validateProduct`. -/
def specValidationAccepts (p : ProductData) : Bool :=
  jsTrim p.title != "" && jsTrim p.barcode != "" &&
  p.price.isFinite && !p.price.ltZero &&
  p.stock.isFinite && !p.stock.ltZero

/-- A well-formed incoming product (the spec's scenario row). -/
def sampleValid : ProductData :=
  ⟨"C1", "Widget", "desc", "BrandX", "Cat", "Sub", "1234567890123",
    JsNum.num 19, JsNum.num 10, "BEC1", ""⟩

/-- An incoming product rejected by validation (blank barcode). -/
def sampleBad : ProductData := { sampleValid with barcode := "" }

/-- An incoming product with an infinite price and otherwise valid fields. -/
def infPriceProduct : ProductData := { sampleValid with price := JsNum.posInf }

/-- An incoming product whose barcode is whitespace only, rejected by the
barcode check. -/
def blankBarcodeProduct : ProductData :=
  { sampleValid with title := "Widget2", barcode := " " }

/-- An incoming product whose business `code` differs from its `barcode`. -/
def codeNeBarcodeProduct : ProductData :=
  { sampleValid with code := "A", barcode := "B" }

/-- A remote catalog entity whose first variant carries barcode "B". -/
def remoteB : RemoteProduct := ⟨some "B", "gid-1", "inv-1"⟩

/-- A mutation sub-result with a non-empty user-error list. -/
def failingSubResult : MutSubResult := ⟨"gid-p", "inv-p", [⟨"title", "invalid"⟩]⟩

/-- Remote responses: throttled twice, then a clean success. -/
def respTTS : Nat → GqlResponse := fun n =>
  if n < 2 then ⟨429, "Too Many Requests", none⟩ else ⟨200, "OK", none⟩

/-- Remote responses: throttled on every attempt. -/
def respAllT : Nat → GqlResponse := fun _ => ⟨429, "Too Many Requests", none⟩

/-- Every slice produced by the slicing loop has at most `k` elements, is
non-empty, and draws its elements from the sliced list (stated on the
fuel-indexed worker for any sufficient fuel). -/
theorem chunksAux_props {α : Type} (k : Nat) (hk : 0 < k) :
    ∀ (fuel : Nat) (l : List α), l.length ≤ fuel →
      ∀ b ∈ chunksAux k fuel l, b.length ≤ k ∧ b ≠ [] ∧ ∀ a ∈ b, a ∈ l := by
  intro fuel
  induction fuel with
  | zero =>
      intro l hl b hb
      have : l = [] := List.length_eq_zero.mp (Nat.le_zero.mp hl)
      subst this
      simp [chunksAux] at hb
  | succ n ih =>
      intro l hl b hb
      cases l with
      | nil => simp [chunksAux] at hb
      | cons x xs =>
          simp only [chunksAux, List.mem_cons] at hb
          rcases hb with hb | hb
          · subst hb
            refine ⟨?_, ?_, ?_⟩
            · simp [List.length_take]
            · cases k with
              | zero => exact absurd hk (by omega)
              | succ m => simp [List.take_cons]
            · intro a ha
              exact List.take_subset _ _ ha
          · have hlen : (xs.drop (k - 1)).length ≤ n := by
              simp only [List.length_drop]
              simp only [List.length_cons] at hl
              omega
            obtain ⟨h1, h2, h3⟩ := ih (xs.drop (k - 1)) hlen b hb
            exact ⟨h1, h2, fun a ha =>
              List.mem_cons_of_mem x (List.drop_subset _ _ (h3 a ha))⟩

/-- The 50-wide slicing loop produces exactly `⌈length / 50⌉` slices. -/
theorem chunksAux_count {α : Type} :
    ∀ (fuel : Nat) (l : List α), l.length ≤ fuel →
      (chunksAux 50 fuel l).length = ceilDiv50 l.length := by
  intro fuel
  induction fuel with
  | zero =>
      intro l hl
      have : l = [] := List.length_eq_zero.mp (Nat.le_zero.mp hl)
      subst this
      simp [chunksAux, ceilDiv50]
  | succ n ih =>
      intro l hl
      cases l with
      | nil => simp [chunksAux, ceilDiv50]
      | cons x xs =>
          have hlen : (xs.drop 49).length ≤ n := by
            simp only [List.length_drop]
            simp only [List.length_cons] at hl
            omega
          have hrec := ih (xs.drop 49) hlen
          simp only [chunksAux, List.length_cons, hrec, List.length_drop,
            ceilDiv50]
          omega

/-- Lemma: `chunks` inherits the slice properties of its worker. -/
theorem chunks_props {α : Type} (k : Nat) (hk : 0 < k) (l : List α) :
    ∀ b ∈ chunks k l, b.length ≤ k ∧ b ≠ [] ∧ ∀ a ∈ b, a ∈ l :=
  chunksAux_props k hk l.length l (Nat.le_refl _)

/-- Lemma: `chunks 50` produces exactly `⌈length / 50⌉` slices. -/
theorem chunks_count {α : Type} (l : List α) :
    (chunks 50 l).length = ceilDiv50 l.length :=
  chunksAux_count l.length l (Nat.le_refl _)

/-- Lemma: `filterMap` collapses to `map` when the function is total on the list. -/
theorem filterMap_eq_map_on {β γ : Type} (L : List β) (f : β → Option γ) (g : β → γ)
    (h : ∀ b ∈ L, f b = some (g b)) : L.filterMap f = L.map g := by
  induction L with
  | nil => simp
  | cons b bs ih =>
      simp only [List.filterMap_cons, h b (List.mem_cons_self b bs), List.map_cons]
      rw [ih (fun c hc => h c (List.mem_cons_of_mem b hc))]

/-- The validation fold of `syncProductsWithShopify`, with a general
accumulator: valid items are appended in order, and each rejected item
appends exactly one ledger entry naming its title. -/
theorem validateFold (batch : List ProductData) :
    ∀ acc : List ProductData × List String,
      batch.foldl (fun acc p =>
        if validateProduct p then (acc.1 ++ [p], acc.2)
        else (acc.1, acc.2 ++ ["Validation failed for " ++ p.title])) acc =
      (acc.1 ++ batch.filter (fun p => validateProduct p),
       acc.2 ++ (batch.filter (fun p => !validateProduct p)).map
         (fun p => "Validation failed for " ++ p.title)) := by
  induction batch with
  | nil => simp
  | cons p ps ih =>
      intro acc
      simp only [List.foldl_cons]
      cases hv : validateProduct p <;>
        simp [hv, ih, List.filter_cons, List.append_assoc]

/-- Closed form of `validateBatch`. -/
theorem validateBatch_eq (batch : List ProductData) :
    validateBatch batch =
      (batch.filter (fun p => validateProduct p),
       (batch.filter (fun p => !validateProduct p)).map
         (fun p => "Validation failed for " ++ p.title)) := by
  unfold validateBatch
  rw [validateFold]
  simp

/-- The truthiness guard `!s` is subsumed by the trim test: an empty string
trims to the empty string. -/
theorem beq_or_trim (s : String) :
    (s == "" || jsTrim s == "") = (jsTrim s == "") := by
  cases hs : s == ""
  · simp
  · have h : s = "" := by simpa using hs
    subst h
    simp [jsTrim]

/-- Lemma: `validateProduct` accepts exactly the records whose title and barcode
survive trimming and whose price and stock are neither NaN nor negative. -/
theorem validateProduct_iff (p : ProductData) :
    validateProduct p = true ↔
      (jsTrim p.title ≠ "" ∧ jsTrim p.barcode ≠ "" ∧
       p.price.isNaN = false ∧ p.price.ltZero = false ∧
       p.stock.isNaN = false ∧ p.stock.ltZero = false) := by
  unfold validateProduct
  rw [beq_or_trim, beq_or_trim]
  cases h1 : jsTrim p.title == "" <;>
    cases h2 : jsTrim p.barcode == "" <;>
      cases h3 : p.price.isNaN <;>
        cases h4 : p.price.ltZero <;>
          cases h5 : p.stock.isNaN <;>
            cases h6 : p.stock.ltZero <;>
              simp_all

/-- The loop of `setEpuisesStock` with a general accumulator: each present
code appends one zero-delta adjustment, each absent code appends one
not-found ledger entry. -/
theorem epuisesFold (existing : List (String × RemoteRef)) (epuises : List EpuisesData) :
    ∀ acc : List InvAdjustment × List String,
      epuises.foldl (fun acc e =>
        match mapGet existing e.code with
        | some ref => (acc.1 ++ [InvAdjustment.mk (some ref.inventoryItemId) (JsNum.num 0)], acc.2)
        | none => (acc.1, acc.2 ++ ["Epuises product not found: " ++ e.code])) acc =
      (acc.1 ++ epuises.filterMap (fun e => (mapGet existing e.code).map
         (fun ref => InvAdjustment.mk (some ref.inventoryItemId) (JsNum.num 0))),
       acc.2 ++ (epuises.filter (fun e => (mapGet existing e.code).isNone)).map
         (fun e => "Epuises product not found: " ++ e.code)) := by
  induction epuises with
  | nil => simp
  | cons e es ih =>
      intro acc
      simp only [List.foldl_cons]
      cases hm : mapGet existing e.code <;>
        simp [hm, ih, List.filter_cons, List.filterMap_cons, List.append_assoc]

/-- One step of the progress counter never moves it down (for a
non-negative increment) and never moves it above 100. -/
theorem updateProgress_le (p i : ℚ) (hi : 0 ≤ i) (hp : p ≤ 100) :
    p ≤ updateProgress p i ∧ updateProgress p i ≤ 100 := by
  unfold updateProgress
  constructor
  · exact le_min (by linarith) hp
  · exact min_le_right _ _

/-- The emitted progress totals form a non-decreasing sequence bounded by
100, for any starting value at most 100 and non-negative increments. -/
theorem progressTrace_mono (incs : List ℚ) :
    ∀ p : ℚ, (∀ i ∈ incs, 0 ≤ i) → p ≤ 100 →
      List.Chain' (· ≤ ·) (p :: progressTrace incs p) ∧
        ∀ v ∈ progressTrace incs p, v ≤ 100 := by
  induction incs with
  | nil => simp [progressTrace]
  | cons i rest ih =>
      intro p h hp
      have hi : 0 ≤ i := h i (List.mem_cons_self i rest)
      obtain ⟨hle, hb⟩ := updateProgress_le p i hi hp
      obtain ⟨hchain, hmem⟩ :=
        ih (updateProgress p i) (fun j hj => h j (List.mem_cons_of_mem i hj)) hb
      constructor
      · rw [progressTrace]
        exact List.chain'_cons.mpr ⟨hle, hchain⟩
      · intro v hv
        rw [progressTrace] at hv
        rcases List.mem_cons.mp hv with hv | hv
        · subst hv; exact hb
        · exact hmem v hv

/-- C1: the claim says the terminal result carries the full ordered failure
ledger and that its success flag is true exactly when that ledger is empty.
The route action instead allocates its own empty `failedProducts` array,
never hands it to `syncProductsWithShopify` (whose internal ledger is
discarded), and builds the response from the empty local array: on every
non-fatal run the result's ledger is `[]` and its success flag is `true`,
whatever the sync accumulated — here evaluated with a non-empty internal
ledger. -/
theorem c1_terminal_result_drops_ledger :
    (∀ (L : List String) (vN vE : Nat) (pr : ℚ),
      (action vN vE (Except.ok L) pr).failedProducts = [] ∧
      (action vN vE (Except.ok L) pr).success = true) ∧
    (action 1 0 (Except.ok ["Validation failed for Widget"]) 0).success = true ∧
    (action 1 0 (Except.ok ["Validation failed for Widget"]) 0).failedProducts = [] :=
  ⟨fun _ _ _ _ => ⟨rfl, rfl⟩, rfl, rfl⟩

/-- C2: the claim says an item whose mutation sub-result carries user errors
gets exactly one ledger entry and is excluded from the batch's inventory
adjustment.  The ledger entry is appended, but the adjustment list built by
`createOrUpdateProductBatch` maps over every product of the batch: a failed
create is included with an unassigned (`undefined`) inventory-item id, so
nothing is excluded — the adjustment list always has one entry per batch
item, shown here both in general and on a one-item batch whose single
mutation fails. -/
theorem c2_failed_item_not_excluded :
    (createOrUpdateProductBatch [] (fun _ => failingSubResult) (fun _ => none) [] [sampleValid]
      = (["Failed to create product Widget: title: invalid"],
         [InvAdjustment.mk none (JsNum.num 10)])) ∧
    (∀ (existing : List (String × RemoteRef)) (results : Nat → MutSubResult)
        (imageRes : Nat → Option String) (invErr : List FieldError)
        (products : List ProductData),
      ((createOrUpdateProductBatch existing results imageRes invErr products).2).length
        = products.length) := by
  constructor
  · decide
  · intro existing results imageRes invErr products
    cases products with
    | nil => rfl
    | cons p ps => simp [createOrUpdateProductBatch, List.enum_length]

/-- C3: the claim says the key set used to build the Remote Catalog Index
contains the barcode of every incoming product, so the index covers every
matching remote product.  The code builds `allCodes` from the `code` field
of incoming products: for a product with code "A" and barcode "B", the key
set is `["A"]`, the remote query by those keys misses the remote product
whose variant barcode is "B" (which a barcode query would return), and the
index lookup for the product's barcode comes back empty. -/
theorem c3_index_keys_use_code_not_barcode :
    allCodes [codeNeBarcodeProduct] [] = ["A"] ∧
    codeNeBarcodeProduct.barcode = "B" ∧
    queryPage [remoteB] [codeNeBarcodeProduct.barcode] = [remoteB] ∧
    fetchExistingProducts [remoteB] (allCodes [codeNeBarcodeProduct] []) = [] ∧
    mapGet (fetchExistingProducts [remoteB] (allCodes [codeNeBarcodeProduct] []))
      codeNeBarcodeProduct.barcode = none := by
  exact ⟨rfl, rfl, by decide, by decide, by decide⟩

/-- C4 counterexample: with 51 incoming items of which the first is invalid,
50 items pass validation but the run issues two combined mutation calls, not
`⌈50/50⌉ = 1`: slicing happens on the raw list before validation. -/
theorem c4_counterexample :
    ((sampleBad :: List.replicate 50 sampleValid).filter
        (fun p => validateProduct p)).length = 50 ∧
    ceilDiv50 50 = 1 ∧
    (syncMutationCallSizes (sampleBad :: List.replicate 50 sampleValid)).length = 2 := by
  exact ⟨by decide, rfl, by decide⟩

/-- C4 (amended): no combined create-or-update mutation request ever
contains more than 50 items; slices are cut from the raw incoming list, one
combined call is issued per slice with at least one valid item, and when
every incoming item passes validation the run issues exactly `⌈N/50⌉`
combined mutation calls. -/
theorem c4_batch_width_and_call_count (l : List ProductData) :
    (∀ s ∈ syncMutationCallSizes l, s ≤ 50) ∧
    ((∀ p ∈ l, validateProduct p = true) →
      (syncMutationCallSizes l).length = ceilDiv50 l.length) := by
  constructor
  · intro s hs
    unfold syncMutationCallSizes at hs
    obtain ⟨b, hb, hsb⟩ := List.mem_filterMap.mp hs
    obtain ⟨hle, -, -⟩ := chunks_props 50 (by omega) l b hb
    by_cases hE : ((validateBatch b).1).isEmpty
    · simp [hE] at hsb
    · have hlen2 : ((validateBatch b).1).length = s := by
        simp only [hE] at hsb
        simpa using hsb
      rw [← hlen2]
      calc ((validateBatch b).1).length
          = (b.filter (fun p => validateProduct p)).length := by rw [validateBatch_eq]
        _ ≤ b.length := List.length_filter_le _ _
        _ ≤ 50 := hle
  · intro hall
    unfold syncMutationCallSizes
    rw [filterMap_eq_map_on _ _ (fun b => ((validateBatch b).1).length) ?_]
    · rw [List.length_map, chunks_count]
    · intro b hb
      obtain ⟨-, hne, hsub⟩ := chunks_props 50 (by omega) l b hb
      have hfil : b.filter (fun p => validateProduct p) = b :=
        List.filter_eq_self.mpr (fun a ha => hall a (hsub a ha))
      have h1 : (validateBatch b).1 = b := by rw [validateBatch_eq, hfil]
      simp only [h1]
      cases b with
      | nil => exact absurd rfl hne
      | cons x xs => rfl

/-- Witness for C4 (amended), at a 3-item all-valid feed: the single issued
call has 3 ≤ 50 items and the call count is `⌈3/50⌉ = 1`. -/
theorem c4_batch_width_and_call_count_witness :
    (3 : Nat) ≤ 50 ∧
    (syncMutationCallSizes (List.replicate 3 sampleValid)).length
      = ceilDiv50 (List.replicate 3 sampleValid).length :=
  ⟨(c4_batch_width_and_call_count (List.replicate 3 sampleValid)).1 3 (by decide),
   (c4_batch_width_and_call_count (List.replicate 3 sampleValid)).2 (by decide)⟩

/-- C5 counterexample: a product with price `+Infinity` (not a finite
number) is accepted by `validateProduct`, refuting the claimed "finite"
condition; and the ledger entry appended for a rejected product is
"Validation failed for <title>", which does not name the violated field
(here the barcode). -/
theorem c5_counterexample :
    (validateProduct infPriceProduct = true ∧
     specValidationAccepts infPriceProduct = false ∧
     infPriceProduct.price.isFinite = false) ∧
    ((validateBatch [blankBarcodeProduct]).2 = ["Validation failed for Widget2"] ∧
     containsSub "Validation failed for Widget2" "barcode" = false) := by
  exact ⟨⟨by decide, by decide, by decide⟩, by decide, by decide⟩

/-- C5 (amended): validation accepts a record exactly when its title and
barcode are non-empty after trim and its price and stock are neither NaN
nor negative (infinite values are accepted); every rejection appends exactly
one ledger entry naming the product's title, in feed order. -/
theorem c5_validation_characterization :
    ∀ (p : ProductData) (batch : List ProductData),
      (validateProduct p = true ↔
        (jsTrim p.title ≠ "" ∧ jsTrim p.barcode ≠ "" ∧
         p.price.isNaN = false ∧ p.price.ltZero = false ∧
         p.stock.isNaN = false ∧ p.stock.ltZero = false)) ∧
      (validateBatch batch).1 = batch.filter (fun q => validateProduct q) ∧
      (validateBatch batch).2 = (batch.filter (fun q => !validateProduct q)).map
        (fun q => "Validation failed for " ++ q.title) := by
  intro p batch
  exact ⟨validateProduct_iff p, by rw [validateBatch_eq], by rw [validateBatch_eq]⟩

/-- C6: the claim says a second run with identical input against the remote
state left by the first run performs zero creates.  Because the catalog
index keys are taken from the `code` field while matching is by `barcode`,
a product with code "A" and barcode "B" is created by the first run, the
second run's index query (keys `["A"]`) misses the remote entity carrying
barcode "B", and the second run issues a create again — a duplicate. -/
theorem c6_second_run_creates_again :
    (runCreateBarcodes [] [codeNeBarcodeProduct] []).length = 1 ∧
    applyRun [] [codeNeBarcodeProduct] [] =
      [RemoteProduct.mk (some "B") "gid-created-B" "inv-created-B"] ∧
    (runCreateBarcodes (applyRun [] [codeNeBarcodeProduct] [])
        [codeNeBarcodeProduct] []).length = 1 := by
  exact ⟨by decide, by decide, by decide⟩

/-- C7: the progress counter starts at 0, each call sets it to
`min(previous + amount, 100)` and returns the new total, and across a run
whose increments are non-negative the emitted totals never decrease and
never exceed 100. -/
theorem c7_progress_monotone_clamped :
    ∀ (incs : List ℚ), (∀ i ∈ incs, 0 ≤ i) →
      (∀ p i, updateProgress p i = min (p + i) 100) ∧
      List.Chain' (· ≤ ·) (0 :: progressTrace incs 0) ∧
      ∀ v ∈ progressTrace incs 0, v ≤ 100 := by
  intro incs h
  obtain ⟨hc, hm⟩ := progressTrace_mono incs 0 h (by norm_num)
  exact ⟨fun _ _ => rfl, hc, hm⟩

/-- Witness for C7 at the increment list `[20, 95]`. -/
theorem c7_progress_monotone_clamped_witness :
    updateProgress 0 20 = min ((0 : ℚ) + 20) 100 ∧
    List.Chain' (· ≤ ·) (0 :: progressTrace [20, 95] 0) ∧
    updateProgress 0 20 ≤ 100 := by
  have h := c7_progress_monotone_clamped [20, 95] (by norm_num)
  exact ⟨h.1 0 20, h.2.1,
    h.2.2 _ (by rw [progressTrace]; exact List.mem_cons_self _ _)⟩

/-- C8: the claim says the batch increments total 80, apportioned by batch
item count.  The code emits `(80 / ⌈N/50⌉) × validBatch.length` per batch:
already for two valid items in one batch the single increment is 160, so
the emitted sequence is `[10, 160, 10]` and the batch total is 160, not
80 (only the clamp in the caller hides the overshoot). -/
theorem c8_batch_increment_overshoots :
    syncProgressIncrements [sampleValid, sampleValid] = [10, 160, 10] ∧
    (batchProgressIncrements [sampleValid, sampleValid]).sum = 160 ∧
    (batchProgressIncrements [sampleValid, sampleValid]).sum ≠ 80 := by
  have hv : validateProduct sampleValid = true := by decide
  have hb : batchProgressIncrements [sampleValid, sampleValid] = [160] := by
    simp only [batchProgressIncrements, chunks, chunksAux, validateBatch, ceilDiv50]
    simp [hv]
    norm_num
  refine ⟨?_, ?_, ?_⟩
  · simp [syncProgressIncrements, hb]
  · simp [hb]
  · simp [hb]

/-- C9: under throttling the client waits `500 × attempt_number` and
retries, for at most four attempts (`maxRetries = 3`); sustained throttling
exhausts the attempts and yields the fatal max-retries error after waits
500, 1000, 1500, 2000; a non-throttling attempt ends the loop at once —
returning the response verbatim on success and raising immediately on a
hard error. -/
theorem c9_retry_policy :
    (∀ (resp : Nat → GqlResponse) (k : Nat), k ≤ 3 →
      (∀ i, i < k → isThrottled (resp i) = true) →
      isThrottled (resp k) = false →
      ((shopifyGraphQL resp).2 = (List.range k).map (fun i => 500 * (i + 1)) ∧
       (isHardError (resp k) = false →
         (shopifyGraphQL resp).1 = Except.ok (resp k)) ∧
       (isHardError (resp k) = true →
         (shopifyGraphQL resp).1 = Except.error (hardErrMsg (resp k))))) ∧
    (∀ resp : Nat → GqlResponse,
      (∀ i, i < 4 → isThrottled (resp i) = true) →
      shopifyGraphQL resp = (Except.error maxRetryMsg, [500, 1000, 1500, 2000])) := by
  constructor
  · intro resp k hk hthr hkf
    have hcase : k = 0 ∨ k = 1 ∨ k = 2 ∨ k = 3 := by omega
    rcases hcase with h | h | h | h <;> subst h
    · cases hH : isHardError (resp 0) <;>
        refine ⟨?_, fun hH2 => ?_, fun hH2 => ?_⟩ <;>
          simp_all [shopifyGraphQL, gqlLoop, List.range_succ]
    · have h0 := hthr 0 (by omega)
      cases hH : isHardError (resp 1) <;>
        refine ⟨?_, fun hH2 => ?_, fun hH2 => ?_⟩ <;>
          simp_all [shopifyGraphQL, gqlLoop, List.range_succ]
    · have h0 := hthr 0 (by omega)
      have h1 := hthr 1 (by omega)
      cases hH : isHardError (resp 2) <;>
        refine ⟨?_, fun hH2 => ?_, fun hH2 => ?_⟩ <;>
          simp_all [shopifyGraphQL, gqlLoop, List.range_succ]
    · have h0 := hthr 0 (by omega)
      have h1 := hthr 1 (by omega)
      have h2 := hthr 2 (by omega)
      cases hH : isHardError (resp 3) <;>
        refine ⟨?_, fun hH2 => ?_, fun hH2 => ?_⟩ <;>
          simp_all [shopifyGraphQL, gqlLoop, List.range_succ]
  · intro resp h
    simp [shopifyGraphQL, gqlLoop,
      h 0 (by omega), h 1 (by omega), h 2 (by omega), h 3 (by omega)]

/-- Witness for C9: a remote that throttles twice then answers cleanly
yields the success verbatim after waits 500 and 1000; a remote that always
throttles yields the fatal max-retries error after four increasing waits. -/
theorem c9_retry_policy_witness :
    ((shopifyGraphQL respTTS).1 = Except.ok (GqlResponse.mk 200 "OK" none) ∧
     (shopifyGraphQL respTTS).2 = [500, 1000]) ∧
    shopifyGraphQL respAllT = (Except.error maxRetryMsg, [500, 1000, 1500, 2000]) := by
  have h := c9_retry_policy.1 respTTS 2 (by omega)
    (fun i hi => by interval_cases i <;> decide) (by decide)
  refine ⟨⟨?_, ?_⟩, ?_⟩
  · have := h.2.1 (by decide)
    simpa using this
  · have := h.1
    simpa using this
  · exact c9_retry_policy.2 respAllT (fun i _ => rfl)

/-- C10: under the zero-stock policy (`shouldDelete = false`) the Epuises
phase deletes nothing; each delisted code present in the index contributes
exactly one adjustment, with delta 0, in feed order; each absent code
contributes no adjustment (hence no remote call content) and exactly one
ledger entry "Epuises product not found: <code>" — which contains the
claimed text "not found: <code>", checked on the spec's scenario code 888;
with a clean inventory response the phase ledger is exactly those
not-found entries. -/
theorem c10_zero_stock_policy :
    (∀ (epuises : List EpuisesData) (existing : List (String × RemoteRef))
        (invErr : List FieldError) (delErrors : Nat → List FieldError),
      (setEpuisesStock epuises existing invErr).1 =
        epuises.filterMap (fun e => (mapGet existing e.code).map
          (fun ref => InvAdjustment.mk (some ref.inventoryItemId) (JsNum.num 0))) ∧
      (epuisesLoop epuises existing).2 =
        (epuises.filter (fun e => (mapGet existing e.code).isNone)).map
          (fun e => "Epuises product not found: " ++ e.code) ∧
      (setEpuisesStock epuises existing []).2 = (epuisesLoop epuises existing).2 ∧
      (epuisesPhase false epuises existing invErr delErrors).deletions = []) ∧
    containsSub "Epuises product not found: 888" "not found: 888" = true := by
  constructor
  · intro epuises existing invErr delErrors
    have hloop : epuisesLoop epuises existing =
        (epuises.filterMap (fun e => (mapGet existing e.code).map
          (fun ref => InvAdjustment.mk (some ref.inventoryItemId) (JsNum.num 0))),
         (epuises.filter (fun e => (mapGet existing e.code).isNone)).map
          (fun e => "Epuises product not found: " ++ e.code)) := by
      unfold epuisesLoop
      rw [epuisesFold]
      simp
    refine ⟨?_, ?_, ?_, ?_⟩
    · simp only [setEpuisesStock, hloop]
      split
      · rfl
      · split <;> rfl
    · rw [hloop]
    · simp only [setEpuisesStock]
      split <;> simp
    · unfold epuisesPhase
      simp
  · decide

end SyncApp
